import Mathlib

/-!
Verification of the drizzle-orm-helpers repository against its
natural-language specification.

The repository ships only TypeScript declaration files
(`src/dist/index.d.cts`, `src/dist/mysql/index.d.ts`): declared
signatures, doc comments with the SQL fragments each helper emits, and
exported constant tables. Function bodies are not part of the sources.
The development below therefore has two layers:

* the declared API surface (`Helper`, `RetKind`, `declaredReturn`) is
  transcribed directly from the declaration files;
* runtime behaviour of the helpers is modelled from the specification
  and from the doc comments of the declarations (each such definition
  carries a `Modelled from the spec:` doc comment naming what is
  missing). SQL fragments are modelled as the strings they render to,
  TypeScript numbers as integers, and optional/variadic parameters as
  `Option`/`List` arguments.
-/

namespace DrizzleHelpers

/-- An SQL expression wrapper: an opaque value representing a fragment of
SQL text (the phantom result type of the TypeScript `SQL<T>` wrapper has
no runtime content and is dropped). -/
structure SQL where
  text : String
deriving Repr, DecidableEq

/-! ## Declared API surface, transcribed from the declaration files -/

/-- The exported helper functions of the package, transcribed from the
export lists of `src/dist/index.d.cts` (root and pg modules) and
`src/dist/mysql/index.d.ts`. The mysql module's `random` is named
`randomMysql` here to coexist with the pg module's `random`; `$boolean`
is named `dollarBoolean` because `$` cannot appear in a Lean name.
Exported non-function constants (`$true`, `REGCONFIGS`, ...) are not
helper functions and are not listed. -/
inductive Helper
  | distinct
  | cases
  | coalesce
  | nullIf
  | greatest
  | least
  | add
  | subtract
  | divide
  | multiply
  | dollarBoolean
  | getColumns
  | getNameOrAlias
  | paginate
  | randomMysql
  | age
  | arrayAgg
  | boolAnd
  | boolOr
  | citext
  | contained
  | contains
  | cube
  | cubeDim
  | cubeDistance
  | cubeEnlarge
  | cubeInter
  | cubeIsPoint
  | cubeLowerLeftCoord
  | cubeSubset
  | cubeUnion
  | cubeUpperRightCoord
  | daitch_mokotoff
  | daterange
  | daterangeSchema
  | difference
  | distance
  | extract
  | generatedTsvector
  | geography
  | geometry
  | getCurrentTsConfig
  | intrange
  | intrangeSchema
  | isEmpty
  | jsonAgg
  | jsonAggBuildObject
  | jsonBuildObject
  | jsonObjectAgg
  | jsonStripNulls
  | jsonbBuildObject
  | jsonbObjectAgg
  | makeCube
  | nanoid
  | now
  | numrange
  | numrangeSchema
  | overlaps
  | random
  | regconfig
  | rowToJson
  | setweight
  | similar
  | soundex
  | textenum
  | toExcluded
  | toInterval
  | toJson
  | toJsonb
  | toRange
  | toTsquery
  | toTsvector
  | ts
  | tsrange
  | tsrangeSchema
  | tsvector
deriving Repr, DecidableEq

/-- Kinds of declared return types of the exported helpers, as they
appear in the declaration files. -/
inductive RetKind
  | sqlExpr
  | columnBuilder
  | voidReturn
  | zodSchema
  | sqlRecord
  | columnsRecord
  | nameOrAlias
  | queryBuilder
deriving Repr, DecidableEq

/-- Declared return kind of each exported helper, transcribed from the
declaration files: `SQL<...>` returns are `sqlExpr`,
`PgCustomColumnBuilder<...>` returns are `columnBuilder`, the literal
`(): void` declarations of `cubeLowerLeftCoord`, `cubeUpperRightCoord`,
`cubeSubset`, `cubeUnion`, `cubeInter`, `cubeEnlarge` and `similar` are
`voidReturn`, the `z.ZodObject` returns of the four range schema
builders are `zodSchema`, `toExcluded` returns a record of `SQL`
values, `getColumns` returns a columns record, `getNameOrAlias` returns
a name, and `paginate` returns a dialect query builder. -/
def declaredReturn : Helper → RetKind
  | .citext | .cube | .daterange | .generatedTsvector | .geography | .geometry
  | .intrange | .numrange | .regconfig | .textenum | .tsrange | .tsvector =>
      .columnBuilder
  | .cubeLowerLeftCoord | .cubeUpperRightCoord | .cubeSubset | .cubeUnion
  | .cubeInter | .cubeEnlarge | .similar => .voidReturn
  | .daterangeSchema | .intrangeSchema | .numrangeSchema | .tsrangeSchema =>
      .zodSchema
  | .toExcluded => .sqlRecord
  | .getColumns => .columnsRecord
  | .getNameOrAlias => .nameOrAlias
  | .paginate => .queryBuilder
  | _ => .sqlExpr

/-- The exported helpers whose declared return type is neither an SQL
expression nor a column builder: the seven `(): void` stubs, the four
zod schema builders, `toExcluded`, `getColumns`, `getNameOrAlias` and
`paginate`. -/
def nonExpressionExports : List Helper :=
  [.cubeLowerLeftCoord, .cubeUpperRightCoord, .cubeSubset, .cubeUnion,
   .cubeInter, .cubeEnlarge, .similar,
   .daterangeSchema, .intrangeSchema, .numrangeSchema, .tsrangeSchema,
   .toExcluded, .getColumns, .getNameOrAlias, .paginate]

/-! ## String rendering helpers -/

/-- Joins a list of strings with a separator (no trailing separator). -/
def joinSep (sep : String) : List String → String
  | [] => ""
  | [x] => x
  | x :: xs => x ++ sep ++ joinSep sep xs

/-- Fuel-indexed variant of `joinSep`, modelling the recursion over a
variadic argument list as a step-counted computation that fails with
`none` when the fuel runs out. -/
def joinSepFuel (sep : String) : Nat → List String → Option String
  | 0, _ => none
  | _ + 1, [] => some ""
  | _ + 1, [x] => some x
  | n + 1, x :: xs => (joinSepFuel sep n xs).map (fun r => x ++ sep ++ r)

/-! ## Conditional expression helpers (root module) -/

/-- Modelled from the spec: the body of `cases` is absent from the
sources; its doc comment shows the emitted fragment
`CASE WHEN thing = other THEN 2 ELSE 3 END`. Renders the `WHEN`/`THEN`
arms of a case chain, skipping `undefined` entries (the declared
conditional type is `([SQLWrapper, unknown] | undefined)[]`). -/
def renderWhens : List (Option (SQL × SQL)) → String
  | [] => ""
  | none :: rest => renderWhens rest
  | some (c, v) :: rest =>
      " WHEN " ++ c.text ++ " THEN " ++ v.text ++ renderWhens rest

/-- Modelled from the spec: renders the optional `ELSE` arm of a case
chain (the declared fallback parameter is optional). -/
def renderElse : Option SQL → String
  | none => ""
  | some f => " ELSE " ++ f.text

/-- Modelled from the spec: the body of the root module's `cases` helper
is absent from the sources; per its doc comment it emits a
`CASE WHEN ... THEN ... ELSE ... END` fragment. The source export is
named `cases`; the Lean definition is `casesChain`. -/
def casesChain (conds : List (Option (SQL × SQL))) (fb : Option SQL) : SQL :=
  ⟨"CASE" ++ renderWhens conds ++ renderElse fb ++ " END"⟩

/-- Modelled from the spec: the body of `coalesce` is absent from the
sources; per its doc comment it wraps the Postgres `COALESCE` function
over its variadic arguments. -/
def coalesce (values : List SQL) : SQL :=
  ⟨"coalesce(" ++ joinSep ", " (values.map SQL.text) ++ ")"⟩

/-- Fuel-indexed evaluator for `coalesce`, failing with `none` when the
fuel does not cover the recursion over the argument list. -/
def coalesceTextFuel (fuel : Nat) (values : List SQL) : Option String :=
  (joinSepFuel ", " fuel (values.map SQL.text)).map
    (fun r => "coalesce(" ++ r ++ ")")

/-! ## random helpers -/

/-- Modelled from the spec: the body of the pg module's `random` is
absent from the sources; its doc comment shows the fragment
`random()`. -/
def random : SQL := ⟨"random()"⟩

/-- Modelled from the spec: the body of the mysql module's `random` is
absent from the sources; its doc comment shows the fragment `rand()`.
The source export is named `random`; the Lean definition is
`randomMysql` to coexist with the pg module's `random`. -/
def randomMysql : SQL := ⟨"rand()"⟩

/-! ## cube expression helpers -/

/-- The declared argument shapes of the variadic `makeCube` helper,
transcribed from its declared overload union
`[number] | [number, number] | number[] | [number[], number[]] |
[SQLWrapper, number] | [SQLWrapper, number, number]` (TypeScript
numbers are modelled as integers). -/
inductive MakeCubeArgs
  | single (x : Int)
  | pair (x y : Int)
  | arr (xs : List Int)
  | arrPair (xs ys : List Int)
  | extend1 (c : SQL) (x : Int)
  | extend2 (c : SQL) (x y : Int)
deriving Repr, DecidableEq

/-- Number of scalar arguments carried by a `makeCube` argument list. -/
def MakeCubeArgs.argCount : MakeCubeArgs → Nat
  | .single _ => 1
  | .pair _ _ => 2
  | .arr xs => xs.length
  | .arrPair xs ys => xs.length + ys.length
  | .extend1 _ _ => 2
  | .extend2 _ _ _ => 3

/-- Modelled from the spec: the body of `makeCube` is absent from the
sources; its doc comment shows the emitted fragments `cube(1)`,
`cube(1, 2)`, `cube(ARRAY[1,2,3])`, `cube(ARRAY[1,2], ARRAY[3,4])`,
`cube(c, 5)` and `cube(c, 5, 6)` for the six declared overloads. -/
def makeCube : MakeCubeArgs → SQL
  | .single x => ⟨"cube(" ++ toString x ++ ")"⟩
  | .pair x y => ⟨"cube(" ++ toString x ++ ", " ++ toString y ++ ")"⟩
  | .arr xs => ⟨"cube(ARRAY[" ++ joinSep ", " (xs.map toString) ++ "])"⟩
  | .arrPair xs ys =>
      ⟨"cube(ARRAY[" ++ joinSep ", " (xs.map toString) ++ "], ARRAY[" ++
        joinSep ", " (ys.map toString) ++ "])"⟩
  | .extend1 c x => ⟨"cube(" ++ c.text ++ ", " ++ toString x ++ ")"⟩
  | .extend2 c x y =>
      ⟨"cube(" ++ c.text ++ ", " ++ toString x ++ ", " ++ toString y ++ ")"⟩

/-- Fuel-indexed evaluator for `makeCube`, failing with `none` when the
fuel does not cover the recursion over the array arguments. -/
def makeCubeTextFuel (fuel : Nat) : MakeCubeArgs → Option String
  | .single x => some ("cube(" ++ toString x ++ ")")
  | .pair x y => some ("cube(" ++ toString x ++ ", " ++ toString y ++ ")")
  | .arr xs =>
      (joinSepFuel ", " fuel (xs.map toString)).map
        (fun r => "cube(ARRAY[" ++ r ++ "])")
  | .arrPair xs ys =>
      (joinSepFuel ", " fuel (xs.map toString)).bind (fun rx =>
        (joinSepFuel ", " fuel (ys.map toString)).map (fun ry =>
          "cube(ARRAY[" ++ rx ++ "], ARRAY[" ++ ry ++ "])"))
  | .extend1 c x => some ("cube(" ++ c.text ++ ", " ++ toString x ++ ")")
  | .extend2 c x y =>
      some ("cube(" ++ c.text ++ ", " ++ toString x ++ ", " ++ toString y ++ ")")

/-! ## distance operator helper -/

/-- The `DISTANCE_TYPES` constant of the pg module, transcribed from its
declaration: `euclidian`, `taxicab` and `chebyshev`. -/
inductive DistanceType
  | euclidian
  | taxicab
  | chebyshev
deriving Repr, DecidableEq

/-- Modelled from the spec: the body of `distance` is absent from the
sources; its doc comment documents the Euclidean operator `<->`, the
taxicab (L-1 metric) operator `<#>` and the Chebyshev (L-inf metric)
operator `<=>`. An omitted option selects the Euclidean operator. -/
def distanceOp : Option DistanceType → String
  | none => "<->"
  | some DistanceType.euclidian => "<->"
  | some DistanceType.taxicab => "<#>"
  | some DistanceType.chebyshev => "<=>"

/-- Modelled from the spec: the body of `distance` is absent from the
sources; it places the operator selected by the `type` option between
the two operand fragments, which are emitted unchanged. -/
def distance (l : SQL) (r : SQL) (t : Option DistanceType) : SQL :=
  ⟨l.text ++ (" " ++ distanceOp t ++ " ") ++ r.text⟩

/-! ## interval helper -/

/-- A deconstructed interval value: the declared parameter of
`toInterval` is `Partial<Record<IntervalUnit, number>>` over the seven
units of the `INTERVAL_UNITS` constant. -/
structure IntervalValue where
  years : Option Int
  months : Option Int
  weeks : Option Int
  days : Option Int
  hours : Option Int
  minutes : Option Int
  seconds : Option Int
deriving Repr, DecidableEq

/-- The unit fields of an interval value paired with their unit names,
in the order of the `INTERVAL_UNITS_ARR_ORDERED` constant of the
sources. -/
def intervalPairs (v : IntervalValue) : List (Option Int × String) :=
  [(v.years, "years"), (v.months, "months"), (v.weeks, "weeks"),
   (v.days, "days"), (v.hours, "hours"), (v.minutes, "minutes"),
   (v.seconds, "seconds")]

/-- Modelled from the spec: renders the present units of an interval
value as `<amount> <unit>` parts, skipping absent units. -/
def renderUnits : List (Option Int × String) → List String
  | [] => []
  | (none, _) :: rest => renderUnits rest
  | (some n, u) :: rest => (toString n ++ " " ++ u) :: renderUnits rest

/-- Fuel-indexed variant of `renderUnits`. -/
def renderUnitsFuel : Nat → List (Option Int × String) → Option (List String)
  | 0, _ => none
  | _ + 1, [] => some []
  | n + 1, (none, _) :: rest => renderUnitsFuel n rest
  | n + 1, (some x, u) :: rest =>
      (renderUnitsFuel n rest).map (fun l => (toString x ++ " " ++ u) :: l)

/-- Modelled from the spec: the body of `toInterval` is absent from the
sources; it formats the present units of the record, in the fixed
`INTERVAL_UNITS_ARR_ORDERED` order, into an `interval` fragment. -/
def toInterval (v : IntervalValue) : SQL :=
  ⟨"interval " ++ joinSep " " (renderUnits (intervalPairs v))⟩

/-- Fuel-indexed evaluator for `toInterval`, failing with `none` when
the fuel does not cover the traversal of the unit record. -/
def toIntervalTextFuel (fuel : Nat) (v : IntervalValue) : Option String :=
  (renderUnitsFuel fuel (intervalPairs v)).bind (fun us =>
    (joinSepFuel " " fuel us).map (fun r => "interval " ++ r))

/-! ## range helper -/

/-- The `RANGE_BOUND_TYPES` constant of the pg module, transcribed from
its declaration: `inclusive` and `exclusive`. -/
inductive RangeBoundType
  | inclusive
  | exclusive
deriving Repr, DecidableEq

/-- Whether a range bound type is the inclusive one. -/
def RangeBoundType.isInclusive : RangeBoundType → Bool
  | .inclusive => true
  | .exclusive => false

/-- A range value with its bound inclusivities (bounds are optional as
in the declared `[number | undefined, number | undefined]` tuple). -/
structure PgRange where
  lower : Option Int
  upper : Option Int
  lowerInc : Bool
  upperInc : Bool
deriving Repr, DecidableEq

/-- Modelled from the spec: the body of `toRange` is absent from the
sources; its doc comment states that it uses the canonical form of
included lower bound and excluded upper bound, and its options override
the inclusivity of the corresponding bound only. -/
def toRange (lo hi : Option Int) (lb ub : Option RangeBoundType) : PgRange :=
  ⟨lo, hi,
   (lb.getD RangeBoundType.inclusive).isInclusive,
   (ub.getD RangeBoundType.exclusive).isInclusive⟩

/-- Renders an optional range bound (an absent bound renders empty, as
in Postgres range literals). -/
def renderBound : Option Int → String
  | none => ""
  | some n => toString n

/-- Renders a range value as a Postgres range literal with `[`/`]` for
inclusive and `(`/`)` for exclusive bounds. -/
def renderRange (r : PgRange) : String :=
  (if r.lowerInc then "[" else "(") ++ renderBound r.lower ++ "," ++
    renderBound r.upper ++ (if r.upperInc then "]" else ")")

/-! ## pagination helper -/

/-- A dialect-agnostic select query: the clauses relevant to `paginate`
(`limit`, `offset`) and the remaining clauses it must not touch. -/
structure SelectQuery where
  fromTable : String
  whereClause : Option String
  orderBy : List String
  limit : Option Nat
  offset : Option Nat
deriving Repr, DecidableEq

/-- Modelled from the spec: the fixed default page size used by
`paginate` when its `size` option is omitted (the declaration makes
`size` optional; the concrete default value is not recoverable from the
declaration files). -/
def PAGINATION_DEFAULT_SIZE : Nat := 20

/-- Modelled from the spec: the body of `paginate` is absent from the
sources; per its declaration `paginate(qb, PaginationOpts)` and doc
comment it pages the query, i.e. applies a limit of `size` and an
offset of `page * size`, leaving every other clause unchanged. -/
def paginate (qb : SelectQuery) (page : Nat) (size : Option Nat) : SelectQuery :=
  ⟨qb.fromTable, qb.whereClause, qb.orderBy,
   some (size.getD PAGINATION_DEFAULT_SIZE),
   some (page * size.getD PAGINATION_DEFAULT_SIZE)⟩

/-- Object-store wrapper around `paginate`: queries live in a store of
objects addressed by position, and `paginate` produces its result as a
fresh object, returning the new store and the reference to the result.
Modelled from the spec: helper arguments are immutable once
constructed, so the call binds a new object rather than updating the
one named by `ref`. -/
def paginateRef (st : List SelectQuery) (ref page : Nat) (size : Option Nat) :
    List SelectQuery × Nat :=
  match st[ref]? with
  | some q => (st ++ [paginate q page size], st.length)
  | none => (st, ref)

/-! ## column-type helpers -/

/-- A custom column type configuration: the SQL type name the
configuration's `dataType()` callback reports to the host library. -/
structure ColumnConfig where
  sqlTypeName : String
deriving Repr, DecidableEq

/-- The host library's custom-column constructor: `customType` of
drizzle-orm, which turns a configuration object and a column name into
a `PgCustomColumnBuilder`. -/
structure PgCustomColumnBuilder where
  name : String
  config : ColumnConfig
deriving Repr, DecidableEq

/-- The host library's custom-column constructor applied to a
configuration object and a column name. -/
def customType (cfg : ColumnConfig) (name : String) : PgCustomColumnBuilder :=
  ⟨name, cfg⟩

/-- Modelled from the spec: `citext` hands the host library's
custom-column constructor a configuration for the `citext` type. -/
def citext (name : String) : PgCustomColumnBuilder :=
  customType ⟨"citext"⟩ name

/-- Modelled from the spec: the `cube` column type hands the
custom-column constructor a configuration for the `cube` type. -/
def cube (name : String) : PgCustomColumnBuilder :=
  customType ⟨"cube"⟩ name

/-- Modelled from the spec: `tsvector` hands the custom-column
constructor a configuration for the `tsvector` type. -/
def tsvector (name : String) : PgCustomColumnBuilder :=
  customType ⟨"tsvector"⟩ name

/-- Modelled from the spec: `regconfig` hands the custom-column
constructor a configuration for the `regconfig` type. -/
def regconfig (name : String) : PgCustomColumnBuilder :=
  customType ⟨"regconfig"⟩ name

/-- Modelled from the spec: `tsrange` hands the custom-column
constructor a configuration for the timestamp range type, honouring its
declared `withTimezone` option. -/
def tsrange (name : String) (withTimezone : Bool) : PgCustomColumnBuilder :=
  customType ⟨if withTimezone then "tstzrange" else "tsrange"⟩ name

/-- Modelled from the spec: `daterange` hands the custom-column
constructor a configuration for the `daterange` type. -/
def daterange (name : String) : PgCustomColumnBuilder :=
  customType ⟨"daterange"⟩ name

/-- Modelled from the spec: `intrange` hands the custom-column
constructor a configuration for `int4range` or `int8range` according to
its declared `size` option (`4` or `8`, defaulting to `4`). -/
def intrange (name : String) (size : Option Nat) : PgCustomColumnBuilder :=
  customType ⟨if size = some 8 then "int8range" else "int4range"⟩ name

/-- Modelled from the spec: `numrange` hands the custom-column
constructor a configuration for the `numrange` type. -/
def numrange (name : String) : PgCustomColumnBuilder :=
  customType ⟨"numrange"⟩ name

/-- Modelled from the spec: `geography` hands the custom-column
constructor a configuration for the PostGIS `geography` type. -/
def geography (name : String) : PgCustomColumnBuilder :=
  customType ⟨"geography"⟩ name

/-- Modelled from the spec: `geometry` hands the custom-column
constructor a configuration for the PostGIS `geometry` type. -/
def geometry (name : String) : PgCustomColumnBuilder :=
  customType ⟨"geometry"⟩ name

/-- Modelled from the spec: `textenum` hands the custom-column
constructor a configuration for the `text` type (its enum is enforced
by the runtime check of `textenumFromDriver`). -/
def textenum (name : String) (_enumVals : List String) : PgCustomColumnBuilder :=
  customType ⟨"text"⟩ name

/-- Modelled from the spec: `generatedTsvector` hands the custom-column
constructor a configuration for a generated `tsvector` column. -/
def generatedTsvector (name : String) (_sources : List String)
    (_weighted : Bool) : PgCustomColumnBuilder :=
  customType ⟨"tsvector"⟩ name

/-! ## textenum runtime check -/

/-- The declared fallback of `textenum`'s configuration, transcribed
from `TConfig['enum'][number] | Error | ((value: string) => ...)`: a
replacement value, an `Error` (carried here by its message), or a
mapping function. -/
inductive TextenumFallback
  | value (v : String)
  | err (e : String)
  | fn (f : String → String)

/-- Modelled from the spec: the body of `textenum`'s runtime check is
absent from the sources; per the doc comment it checks incoming values
against the configured enum, and the declared fallback type forces the
semantics on failure: a replacement value is returned, a function is
applied to the value, and an `Error` fallback is thrown (an `Error`
cannot be returned at the declared data type). -/
def textenumFromDriver (enumVals : List String) (fb : TextenumFallback)
    (v : String) : Except String String :=
  if v ∈ enumVals then Except.ok v
  else
    match fb with
    | .value w => Except.ok w
    | .err e => Except.error e
    | .fn f => Except.ok (f v)

/-! ## Call model: calls against an explicit shared state -/

/-- A call to one of the modelled helpers, with its arguments. -/
inductive HelperCall
  | callRandomPg
  | callRandomMysql
  | callCases (conds : List (Option (SQL × SQL))) (fb : Option SQL)
  | callCoalesce (values : List SQL)
  | callDistance (l r : SQL) (t : Option DistanceType)
  | callMakeCube (a : MakeCubeArgs)
  | callToInterval (v : IntervalValue)
  | callToRange (lo hi : Option Int) (lb ub : Option RangeBoundType)
  | callPaginate (q : SelectQuery) (page : Nat) (size : Option Nat)
  | callCitext (name : String)
  | callCube (name : String)
  | callTsvector (name : String)
  | callRegconfig (name : String)
  | callTsrange (name : String) (tz : Bool)
  | callDaterange (name : String)
  | callIntrange (name : String) (size : Option Nat)
  | callNumrange (name : String)
  | callGeography (name : String)
  | callGeometry (name : String)
  | callTextenum (name : String) (enumVals : List String)
  | callGeneratedTsvector (name : String) (sources : List String) (weighted : Bool)
deriving Repr, DecidableEq

/-- The value a helper call produces: an SQL expression, a column
builder, or a query builder. -/
inductive CallResult
  | sqlRes (s : SQL)
  | builderRes (b : PgCustomColumnBuilder)
  | queryRes (q : SelectQuery)
deriving Repr, DecidableEq

/-- Shared mutable state observable across calls, modelled as a generic
key/value environment. -/
abbrev Store := List (String × String)

/-- The pure value of a helper call, computed from its arguments
alone. -/
def evalCall : HelperCall → CallResult
  | .callRandomPg => .sqlRes random
  | .callRandomMysql => .sqlRes randomMysql
  | .callCases conds fb => .sqlRes (casesChain conds fb)
  | .callCoalesce values => .sqlRes (coalesce values)
  | .callDistance l r t => .sqlRes (distance l r t)
  | .callMakeCube a => .sqlRes (makeCube a)
  | .callToInterval v => .sqlRes (toInterval v)
  | .callToRange lo hi lb ub => .sqlRes ⟨renderRange (toRange lo hi lb ub)⟩
  | .callPaginate q page size => .queryRes (paginate q page size)
  | .callCitext name => .builderRes (citext name)
  | .callCube name => .builderRes (cube name)
  | .callTsvector name => .builderRes (tsvector name)
  | .callRegconfig name => .builderRes (regconfig name)
  | .callTsrange name tz => .builderRes (tsrange name tz)
  | .callDaterange name => .builderRes (daterange name)
  | .callIntrange name size => .builderRes (intrange name size)
  | .callNumrange name => .builderRes (numrange name)
  | .callGeography name => .builderRes (geography name)
  | .callGeometry name => .builderRes (geometry name)
  | .callTextenum name enumVals => .builderRes (textenum name enumVals)
  | .callGeneratedTsvector name sources weighted =>
      .builderRes (generatedTsvector name sources weighted)

/-- Modelled from the spec: helper bodies are absent from the sources
and the spec states that all helpers are synchronous, pure and
stateless, so executing a call against the shared state computes its
value from the arguments alone and leaves the state untouched. -/
def execCall (c : HelperCall) (st : Store) : CallResult × Store :=
  (evalCall c, st)

/-- Executes a sequence of helper calls, threading the shared state
through every call, and collects the results in order. -/
def runCalls : List HelperCall → Store → List CallResult × Store
  | [], st => ([], st)
  | c :: cs, st =>
      let r := execCall c st
      let rest := runCalls cs r.2
      (r.1 :: rest.1, rest.2)

/-! ## Helper lemmas -/

theorem runCalls_eq (cs : List HelperCall) (st : Store) :
    runCalls cs st = (cs.map evalCall, st) := by
  induction cs generalizing st with
  | nil => rfl
  | cons c cs ih => simp [runCalls, execCall, ih]

theorem joinSepFuel_complete (sep : String) :
    ∀ (xs : List String) (n : Nat), xs.length < n →
      joinSepFuel sep n xs = some (joinSep sep xs) := by
  intro xs
  induction xs with
  | nil =>
      intro n h
      cases n with
      | zero => omega
      | succ m => rfl
  | cons x xs ih =>
      intro n h
      cases n with
      | zero => omega
      | succ m =>
          cases xs with
          | nil => rfl
          | cons y ys =>
              have hm : (y :: ys).length < m := by
                simpa using Nat.lt_of_succ_lt_succ h
              simp [joinSepFuel, joinSep, ih m hm]

theorem renderUnitsFuel_complete :
    ∀ (ps : List (Option Int × String)) (n : Nat), ps.length < n →
      renderUnitsFuel n ps = some (renderUnits ps) := by
  intro ps
  induction ps with
  | nil =>
      intro n h
      cases n with
      | zero => omega
      | succ m => rfl
  | cons p ps ih =>
      intro n h
      cases n with
      | zero => omega
      | succ m =>
          have hm : ps.length < m := by
            simpa using Nat.lt_of_succ_lt_succ h
          obtain ⟨ov, u⟩ := p
          cases ov with
          | none => simpa [renderUnitsFuel, renderUnits] using ih m hm
          | some x => simp [renderUnitsFuel, renderUnits, ih m hm]

theorem renderUnits_length_le :
    ∀ ps : List (Option Int × String), (renderUnits ps).length ≤ ps.length := by
  intro ps
  induction ps with
  | nil => simp [renderUnits]
  | cons p ps ih =>
      obtain ⟨ov, u⟩ := p
      cases ov with
      | none =>
          calc (renderUnits ((none, u) :: ps)).length = (renderUnits ps).length := by
                simp [renderUnits]
            _ ≤ ps.length := ih
            _ ≤ ps.length + 1 := Nat.le_succ _
      | some x =>
          simpa [renderUnits] using Nat.succ_le_succ ih

/-! ## Claim theorems -/

/-- Claim C1, counterexample: the claim names `cubeLowerLeftCoord` as a
helper returning a typed SQL expression (or column-builder) object, but
its declaration in `src/dist/index.d.cts` is
`declare function cubeLowerLeftCoord(): void;` — its declared return
kind is neither an SQL expression nor a column builder. -/
theorem cubeLowerLeftCoord_declared_void :
    ¬(declaredReturn Helper.cubeLowerLeftCoord = RetKind.sqlExpr ∨
      declaredReturn Helper.cubeLowerLeftCoord = RetKind.columnBuilder) := by
  decide

/-- Claim C1, amended: every exported helper function is declared to
return a typed SQL expression object or a column-builder object, except
for the unimplemented void-returning stubs (`cubeLowerLeftCoord`,
`cubeUpperRightCoord`, `cubeSubset`, `cubeUnion`, `cubeInter`,
`cubeEnlarge`, `similar`) and the exported utilities whose declared
return is a record of expressions, a zod schema, a columns record, a
name, or a query builder (`toExcluded`, the four range schema builders,
`getColumns`, `getNameOrAlias`, `paginate`). -/
theorem helpers_return_expressions_amended :
    ∀ h : Helper,
      declaredReturn h = RetKind.sqlExpr ∨
      declaredReturn h = RetKind.columnBuilder ∨
      h ∈ nonExpressionExports := by
  intro h
  cases h <;> decide

/-- Claim C2: for fixed inputs the emitted fragment is the expected
literal SQL text: the mysql module's `random` produces the fragment
`rand()`, and `cases([[cond, v]], f)` produces the fragment
`CASE WHEN <cond> THEN <v> ELSE <f> END`. -/
theorem sql_fragment_texts :
    randomMysql.text = "rand()" ∧
    ∀ c v f : SQL,
      (casesChain [some (c, v)] (some f)).text =
        "CASE WHEN " ++ c.text ++ " THEN " ++ v.text ++ " ELSE " ++
          f.text ++ " END" := by
  refine ⟨rfl, fun c v f => ?_⟩
  simp only [casesChain, renderWhens, renderElse, String.append_empty,
    String.append_assoc]
  rw [← String.append_assoc]
  rfl

/-- Claim C3: every modelled helper is deterministic, side-effect-free
and stateless: executing any sequence of calls leaves the shared state
unchanged, and the result of a call depends only on its arguments — two
calls with equal arguments, at any positions of any two sequences run
from any two states, produce equal results. -/
theorem helpers_pure_stateless :
    (∀ (cs : List HelperCall) (st : Store), (runCalls cs st).2 = st) ∧
    (∀ (cs1 cs2 : List HelperCall) (st1 st2 : Store) (i j : Nat)
       (c : HelperCall),
      cs1[i]? = some c → cs2[j]? = some c →
      (runCalls cs1 st1).1[i]? = (runCalls cs2 st2).1[j]?) := by
  constructor
  · intro cs st
    rw [runCalls_eq]
  · intro cs1 cs2 st1 st2 i j c h1 h2
    rw [runCalls_eq, runCalls_eq]
    simp only [List.getElem?_map, h1, h2]

/-- Witness for C3: the same `randomMysql` call, run alone from the
empty state and as the second call of another sequence from a non-empty
state, produces the same result. -/
theorem helpers_pure_stateless_witness :
    (runCalls [HelperCall.callRandomMysql] []).1[0]? =
      (runCalls [HelperCall.callCases [] none, HelperCall.callRandomMysql]
        [("key", "value")]).1[1]? :=
  helpers_pure_stateless.2 [HelperCall.callRandomMysql]
    [HelperCall.callCases [] none, HelperCall.callRandomMysql]
    [] [("key", "value")] 0 1 HelperCall.callRandomMysql rfl rfl

/-- Claim C4: objects passed to a helper are unchanged by the call — in
the object-store model, `paginate` binds its result as a fresh object
and every object existing before the call, in particular the
query-builder argument itself, is exactly what it was before. -/
theorem paginate_arguments_unmutated :
    ∀ (st : List SelectQuery) (ref page : Nat) (size : Option Nat) (i : Nat),
      i < st.length → ((paginateRef st ref page size).1)[i]? = st[i]? := by
  intro st ref page size i h
  unfold paginateRef
  cases hq : st[ref]? with
  | none => rfl
  | some q => simp [List.getElem?_append_left h]

/-- Witness for C4: paginating the single query of a one-object store
leaves that object unchanged. -/
theorem paginate_arguments_unmutated_witness :
    ((paginateRef [(⟨"users", none, [], none, none⟩ : SelectQuery)]
        0 2 (some 10)).1)[0]? =
      [(⟨"users", none, [], none, none⟩ : SelectQuery)][0]? :=
  paginate_arguments_unmutated
    [(⟨"users", none, [], none, none⟩ : SelectQuery)] 0 2 (some 10) 0
    (by decide)

/-- Claim C5, counterexample: `textenum`'s runtime check does raise an
error originating in this library: with the configured enum
`["a", "b"]`, fallback `Error("invalid enum value")` and incoming value
`"c"`, the driver-value check throws the configured error. -/
theorem textenum_throws_on_invalid_value :
    textenumFromDriver ["a", "b"] (TextenumFallback.err "invalid enum value")
        "c" =
      Except.error "invalid enum value" := rfl

/-- Claim C5, amended: `textenum`'s runtime check raises an error if and
only if the incoming value is outside the configured enum and the
configured fallback is an `Error`; with a replacement-value or function
fallback, and for every value inside the enum, no error is raised. -/
theorem textenum_error_iff :
    ∀ (enumVals : List String) (fb : TextenumFallback) (v e : String),
      textenumFromDriver enumVals fb v = Except.error e ↔
        (v ∉ enumVals ∧ fb = TextenumFallback.err e) := by
  intro enumVals fb v e
  unfold textenumFromDriver
  by_cases h : v ∈ enumVals
  · simp [h]
  · cases fb <;> simp [h]

/-- Claim C6: the variadic and record-driven helpers `makeCube`,
`coalesce` and `toInterval` terminate on every argument list: the
fuel-indexed evaluators, which fail with `none` when their step budget
runs out, succeed on every input within a fuel bounded by the size of
the argument list (a constant for the fixed-size `toInterval` record),
producing exactly the helper's fragment. -/
theorem variadic_helpers_terminate :
    (∀ a : MakeCubeArgs,
      makeCubeTextFuel (a.argCount + 1) a = some (makeCube a).text) ∧
    (∀ values : List SQL,
      coalesceTextFuel (values.length + 1) values =
        some (coalesce values).text) ∧
    (∀ v : IntervalValue, toIntervalTextFuel 8 v = some (toInterval v).text) := by
  refine ⟨fun a => ?_, fun values => ?_, fun v => ?_⟩
  · cases a with
    | single x => rfl
    | pair x y => rfl
    | extend1 c x => rfl
    | extend2 c x y => rfl
    | arr xs =>
        have h := joinSepFuel_complete ", " (xs.map toString)
          (xs.length + 1) (by simp)
        simp [makeCubeTextFuel, makeCube, MakeCubeArgs.argCount, h]
    | arrPair xs ys =>
        have hx := joinSepFuel_complete ", " (xs.map toString)
          (xs.length + ys.length + 1) (by simp; omega)
        have hy := joinSepFuel_complete ", " (ys.map toString)
          (xs.length + ys.length + 1) (by simp; omega)
        simp [makeCubeTextFuel, makeCube, MakeCubeArgs.argCount, hx, hy]
  · have h := joinSepFuel_complete ", " (values.map SQL.text)
      (values.length + 1) (by simp)
    simp [coalesceTextFuel, coalesce, h]
  · have h1 := renderUnitsFuel_complete (intervalPairs v) 8
      (by norm_num [intervalPairs])
    have h2 := joinSepFuel_complete " " (renderUnits (intervalPairs v)) 8
      (lt_of_le_of_lt (renderUnits_length_le (intervalPairs v))
        (by norm_num [intervalPairs]))
    simp [toIntervalTextFuel, toInterval, h1, h2]

/-- Claim C7: each of the twelve column-type helpers returns exactly a
configuration object handed to the host library's custom-column
constructor (`customType`, producing a `PgCustomColumnBuilder`), and
the call has no other effect: the shared state is returned untouched. -/
theorem column_helpers_custom_builders :
    ∀ (name : String) (st : Store) (tz weighted : Bool) (size : Option Nat)
      (enumVals sources : List String),
      execCall (HelperCall.callCitext name) st =
        (CallResult.builderRes (customType ⟨"citext"⟩ name), st) ∧
      execCall (HelperCall.callCube name) st =
        (CallResult.builderRes (customType ⟨"cube"⟩ name), st) ∧
      execCall (HelperCall.callTsvector name) st =
        (CallResult.builderRes (customType ⟨"tsvector"⟩ name), st) ∧
      execCall (HelperCall.callRegconfig name) st =
        (CallResult.builderRes (customType ⟨"regconfig"⟩ name), st) ∧
      execCall (HelperCall.callTsrange name tz) st =
        (CallResult.builderRes
          (customType ⟨if tz then "tstzrange" else "tsrange"⟩ name), st) ∧
      execCall (HelperCall.callDaterange name) st =
        (CallResult.builderRes (customType ⟨"daterange"⟩ name), st) ∧
      execCall (HelperCall.callIntrange name size) st =
        (CallResult.builderRes
          (customType ⟨if size = some 8 then "int8range" else "int4range"⟩
            name), st) ∧
      execCall (HelperCall.callNumrange name) st =
        (CallResult.builderRes (customType ⟨"numrange"⟩ name), st) ∧
      execCall (HelperCall.callGeography name) st =
        (CallResult.builderRes (customType ⟨"geography"⟩ name), st) ∧
      execCall (HelperCall.callGeometry name) st =
        (CallResult.builderRes (customType ⟨"geometry"⟩ name), st) ∧
      execCall (HelperCall.callTextenum name enumVals) st =
        (CallResult.builderRes (customType ⟨"text"⟩ name), st) ∧
      execCall (HelperCall.callGeneratedTsvector name sources weighted) st =
        (CallResult.builderRes (customType ⟨"tsvector"⟩ name), st) := by
  intro name st tz weighted size enumVals sources
  exact ⟨rfl, rfl, rfl, rfl, rfl, rfl, rfl, rfl, rfl, rfl, rfl, rfl⟩

/-- Claim C8: for every query, page and size, `paginate` returns the
query with a limit of `size` and an offset of `page * size` and every
other clause unchanged; when the size is omitted, the fixed default
page size is used. -/
theorem paginate_limit_offset_frame :
    (∀ (qb : SelectQuery) (p s : Nat),
      (paginate qb p (some s)).limit = some s ∧
      (paginate qb p (some s)).offset = some (p * s) ∧
      (paginate qb p (some s)).fromTable = qb.fromTable ∧
      (paginate qb p (some s)).whereClause = qb.whereClause ∧
      (paginate qb p (some s)).orderBy = qb.orderBy) ∧
    (∀ (qb : SelectQuery) (p : Nat),
      (paginate qb p none).limit = some PAGINATION_DEFAULT_SIZE ∧
      (paginate qb p none).offset = some (p * PAGINATION_DEFAULT_SIZE) ∧
      (paginate qb p none).fromTable = qb.fromTable ∧
      (paginate qb p none).whereClause = qb.whereClause ∧
      (paginate qb p none).orderBy = qb.orderBy) :=
  ⟨fun _ _ _ => ⟨rfl, rfl, rfl, rfl, rfl⟩,
   fun _ _ => ⟨rfl, rfl, rfl, rfl, rfl⟩⟩

/-- Claim C9: with no bound options `toRange` produces a range in
canonical form — lower bound included, upper bound excluded — and each
of the `lowerBound`/`upperBound` options changes only the inclusivity
of its own bound, leaving the bound values and the other inclusivity at
their defaults. -/
theorem toRange_canonical_bounds :
    (∀ lo hi : Option Int,
      toRange lo hi none none = ⟨lo, hi, true, false⟩) ∧
    (∀ (lo hi : Option Int) (b : RangeBoundType),
      toRange lo hi (some b) none =
        ⟨lo, hi, b.isInclusive, (toRange lo hi none none).upperInc⟩) ∧
    (∀ (lo hi : Option Int) (b : RangeBoundType),
      toRange lo hi none (some b) =
        ⟨lo, hi, (toRange lo hi none none).lowerInc, b.isInclusive⟩) :=
  ⟨fun _ _ => rfl, fun _ _ _ => rfl, fun _ _ _ => rfl⟩

/-- Claim C10: `distance` with no options emits the Euclidean operator
`<->`, with type `taxicab` it emits `<#>`, with type `chebyshev` it
emits `<=>`; no operator outside these three is ever produced, and the
two operand fragments appear unchanged on either side of the
operator. -/
theorem distance_operator_selection :
    (∀ l r : SQL, distance l r none = ⟨l.text ++ " <-> " ++ r.text⟩) ∧
    (∀ l r : SQL,
      distance l r (some DistanceType.taxicab) =
        ⟨l.text ++ " <#> " ++ r.text⟩) ∧
    (∀ l r : SQL,
      distance l r (some DistanceType.chebyshev) =
        ⟨l.text ++ " <=> " ++ r.text⟩) ∧
    (∀ t : Option DistanceType,
      distanceOp t = "<->" ∨ distanceOp t = "<#>" ∨ distanceOp t = "<=>") ∧
    (∀ (l r : SQL) (t : Option DistanceType),
      (distance l r t).text =
        l.text ++ (" " ++ distanceOp t ++ " ") ++ r.text) := by
  refine ⟨fun l r => rfl, fun l r => rfl, fun l r => rfl, ?_,
    fun l r t => rfl⟩
  intro t
  cases t with
  | none => left; rfl
  | some d => cases d <;> simp [distanceOp]

end DrizzleHelpers
